import Mathlib

/-!
Verification of the vireon simulation backend (job orchestration and
aggregation engine).

The Python source is shallowly embedded as follows:
* Python floats are modelled as exact rationals (`ℚ`); `round(x, 1)` is
  modelled by `pyRound1` (round half to even, Python's rounding mode).
* JSON values produced by `json.loads` are modelled by the inductive `JVal`
  (distinguishing ints and floats, as Python does); `json.loads` itself is
  modelled by `parseJson`, a recursive-descent parser for the JSON fragment
  relevant here (no exponent notation and no unicode escapes; none of the
  claims depend on those).
* Fallible Python code (statements that can raise) is modelled with
  `Except String`, the `String` being the exception class name.
* The orchestrator `run_simulation` is modelled as its sequence of field
  writes on the job record (`FieldWrite` / `applyWrite`); an exception in
  the driving sequence may interrupt the sequence after any prefix, after
  which the `except` handler performs `errorWrites`.
-/

/-- Round a rational to the nearest integer, ties to even
(Python's rounding mode for `round`). -/
def pyRoundInt (q : ℚ) : ℤ :=
  if q - ⌊q⌋ < 1/2 then ⌊q⌋
  else if 1/2 < q - ⌊q⌋ then ⌊q⌋ + 1
  else if ⌊q⌋ % 2 = 0 then ⌊q⌋ else ⌊q⌋ + 1

/-- Model of Python `round(x, 1)` on the exact rational value. -/
def pyRound1 (q : ℚ) : ℚ := (pyRoundInt (q * 10) : ℚ) / 10

/-- Truncation toward zero: model of Python `int()` applied to a float. -/
def pyTrunc (q : ℚ) : ℤ := if 0 ≤ q then ⌊q⌋ else ⌈q⌉

/-- `config.py`: blend coefficient `ALPHA = 0.7`. -/
def ALPHA : ℚ := 7/10

-- ── JSON value model ──────────────────────────────────────

/-- Model of a value returned by Python `json.loads` (plus bool/null/etc.).
Python keeps JSON integers and JSON floats distinct, hence two numeric
constructors. -/
inductive JVal where
  | str (s : String)
  | jint (n : ℤ)
  | jfloat (q : ℚ)
  | jbool (b : Bool)
  | jnull
  | arr (elems : List JVal)
  | obj (fields : List (String × JVal))

/-- Python truthiness of a value. -/
def pyTruthy : JVal → Bool
  | .str s => !(s == "")
  | .jint n => !(n == 0)
  | .jfloat q => !(q == 0)
  | .jbool b => b
  | .jnull => false
  | .arr l => !l.isEmpty
  | .obj l => !l.isEmpty

/-- Truthiness of `dict.get(k)` (absent key gives `None`, which is falsy). -/
def pyTruthyO : Option JVal → Bool
  | none => false
  | some v => pyTruthy v

/-- Model of Python `dict` lookup on the association list produced by the
JSON parser. `json.loads` keeps the last binding for a duplicated key, so
lookup searches from the right. -/
def dictGet (kvs : List (String × JVal)) (k : String) : Option JVal :=
  kvs.reverse.lookup k

/-- Model of `dict.get(k, default)`. -/
def dictGetD (kvs : List (String × JVal)) (k : String) (d : JVal) : JVal :=
  (dictGet kvs k).getD d

/-- Python `repr` of a float.  Python prints the shortest round-tripping
decimal; that formatting detail is not modelled exactly (no claim depends
on the text of a float repr), only the int/float distinction is kept. -/
def floatRepr (q : ℚ) : String :=
  if q.den = 1 then toString q.num ++ ".0"
  else toString q.num ++ "/" ++ toString q.den

mutual

/-- Model of Python `repr` on a JSON value. -/
def pyRepr : JVal → String
  | .str s => "\x27" ++ s ++ "\x27"
  | .jint n => toString n
  | .jfloat q => floatRepr q
  | .jbool b => if b then "True" else "False"
  | .jnull => "None"
  | .arr l => "[" ++ pyReprList l ++ "]"
  | .obj l => "\x7b" ++ pyReprObj l ++ "\x7d"

def pyReprList : List JVal → String
  | [] => ""
  | [v] => pyRepr v
  | v :: vs => pyRepr v ++ ", " ++ pyReprList vs

def pyReprObj : List (String × JVal) → String
  | [] => ""
  | [(k, v)] => "\x27" ++ k ++ "\x27: " ++ pyRepr v
  | (k, v) :: r => "\x27" ++ k ++ "\x27: " ++ pyRepr v ++ ", " ++ pyReprObj r

end

/-- Model of Python `str()` on a JSON value. -/
def pyStr : JVal → String
  | .str s => s
  | v => pyRepr v

/-- Model of Python `int()` applied to a string: optional sign and a
non-empty run of digits, surrounding whitespace stripped. -/
def pyIntOfStr (s : String) : Except String ℤ :=
  let cs := (s.toList.dropWhile Char.isWhitespace).reverse.dropWhile
      Char.isWhitespace |>.reverse
  let digitsVal : List Char → Except String ℤ := fun l =>
    if l ≠ [] ∧ l.all Char.isDigit then
      .ok (l.foldl (fun a c => 10 * a + ((c.toNat : ℤ) - 48)) 0)
    else .error "ValueError"
  match cs with
  | '-' :: r => (digitsVal r).map (fun n => -n)
  | '+' :: r => digitsVal r
  | _ => digitsVal cs

/-- Model of Python `int()` on a JSON value; the error carries the
exception class name. -/
def pyInt : JVal → Except String ℤ
  | .jint n => .ok n
  | .jfloat q => .ok (pyTrunc q)
  | .jbool b => .ok (if b then 1 else 0)
  | .str s => pyIntOfStr s
  | _ => .error "TypeError"

/-- Model of Python iteration `for c in v`: lists yield their elements,
strings their characters, dicts their keys; other values raise
`TypeError`. -/
def pyIter : JVal → Except String (List JVal)
  | .arr l => .ok l
  | .str s => .ok (s.toList.map fun c => .str (String.mk [c]))
  | .obj kvs => .ok (kvs.map fun kv => .str kv.1)
  | _ => .error "TypeError"

-- ── JSON parser (model of json.loads) ─────────────────────

def lbrace : Char := Char.ofNat 123
def rbrace : Char := Char.ofNat 125
def btick : Char := Char.ofNat 96

/-- JSON whitespace. -/
def isWSc (c : Char) : Bool := c == ' ' || c == '\n' || c == '\t' || c == '\r'

def skipWS (l : List Char) : List Char := l.dropWhile isWSc

def natOfDigits (l : List Char) : ℕ :=
  l.foldl (fun a c => 10 * a + (c.toNat - 48)) 0

/-- Escape in a JSON string literal (unicode `\uXXXX` escapes are not
modelled; no claim involves them). -/
def escChar (c : Char) : Char :=
  if c == 'n' then '\n'
  else if c == 't' then '\t'
  else if c == 'r' then '\r'
  else if c == 'b' then Char.ofNat 8
  else if c == 'f' then Char.ofNat 12
  else c

/-- Parse the body of a JSON string literal (opening quote consumed). -/
def parseStrAux (acc : List Char) : List Char → Option (String × List Char)
  | [] => none
  | c :: rest =>
    if c == '"' then some (String.mk acc.reverse, rest)
    else if c == '\\' then
      match rest with
      | [] => none
      | e :: r2 => parseStrAux (escChar e :: acc) r2
    else parseStrAux (c :: acc) rest

/-- Parse a JSON number (exponent notation not modelled). -/
def parseNum (l : List Char) : Option (JVal × List Char) :=
  let p : Bool × List Char :=
    match l with
    | c :: r => if c == '-' then (true, r) else (false, l)
    | [] => (false, l)
  let neg := p.1
  let l1 := p.2
  let ds := l1.takeWhile Char.isDigit
  let r1 := l1.dropWhile Char.isDigit
  if ds.isEmpty then none
  else
    let ip : ℤ := (natOfDigits ds : ℤ)
    match r1 with
    | '.' :: r2 =>
      let fs := r2.takeWhile Char.isDigit
      let r3 := r2.dropWhile Char.isDigit
      if fs.isEmpty then none
      else
        let q : ℚ := (ip : ℚ) + (natOfDigits fs : ℚ) / ((10 : ℚ) ^ fs.length)
        some (.jfloat (if neg then -q else q), r3)
    | _ => some (.jint (if neg then -ip else ip), r1)

mutual

def parseVal : ℕ → List Char → Option (JVal × List Char)
  | 0, _ => none
  | f + 1, l =>
    match skipWS l with
    | [] => none
    | c :: rest =>
      if c == '"' then (parseStrAux [] rest).map (fun p => (.str p.1, p.2))
      else if c == lbrace then
        match skipWS rest with
        | c2 :: r2 =>
          if c2 == rbrace then some (.obj [], r2)
          else parseMembers f (c2 :: r2) []
        | [] => none
      else if c == '[' then
        match skipWS rest with
        | c2 :: r2 =>
          if c2 == ']' then some (.arr [], r2)
          else parseItems f (c2 :: r2) []
        | [] => none
      else if c == 't' then
        match rest with
        | 'r' :: 'u' :: 'e' :: r => some (.jbool true, r)
        | _ => none
      else if c == 'f' then
        match rest with
        | 'a' :: 'l' :: 's' :: 'e' :: r => some (.jbool false, r)
        | _ => none
      else if c == 'n' then
        match rest with
        | 'u' :: 'l' :: 'l' :: r => some (.jnull, r)
        | _ => none
      else parseNum (c :: rest)

def parseMembers : ℕ → List Char → List (String × JVal) →
    Option (JVal × List Char)
  | 0, _, _ => none
  | f + 1, l, acc =>
    match skipWS l with
    | c :: rest =>
      if c == '"' then
        match parseStrAux [] rest with
        | none => none
        | some (k, r1) =>
          match skipWS r1 with
          | c2 :: r2 =>
            if c2 == ':' then
              match parseVal f r2 with
              | none => none
              | some (v, r3) =>
                match skipWS r3 with
                | c3 :: r4 =>
                  if c3 == ',' then parseMembers f r4 ((k, v) :: acc)
                  else if c3 == rbrace then
                    some (.obj ((k, v) :: acc).reverse, r4)
                  else none
                | [] => none
            else none
          | [] => none
      else none
    | [] => none

def parseItems : ℕ → List Char → List JVal → Option (JVal × List Char)
  | 0, _, _ => none
  | f + 1, l, acc =>
    match parseVal f l with
    | none => none
    | some (v, r1) =>
      match skipWS r1 with
      | c :: r2 =>
        if c == ',' then parseItems f r2 (v :: acc)
        else if c == ']' then some (.arr (v :: acc).reverse, r2)
        else none
      | [] => none

end

/-- Model of `json.loads`: parse one value and require only whitespace
after it. -/
def parseJson (l : List Char) : Option JVal :=
  match parseVal (2 * l.length + 8) l with
  | some (v, rest) => if (skipWS rest).isEmpty then some v else none
  | none => none

-- ── backboard.one_shot: fence stripping and parse ─────────

/-- Python `str.strip` whitespace. -/
def isPyWS (c : Char) : Bool :=
  isWSc c || c == Char.ofNat 11 || c == Char.ofNat 12

def pyStripChars (l : List Char) : List Char :=
  (l.dropWhile isPyWS).reverse.dropWhile isPyWS |>.reverse

/-- `backboard.one_shot`, fence-stripping part: strip, remove an opening
markdown fence through its first newline, remove a closing fence, strip
again. -/
def stripFences (l : List Char) : List Char :=
  let c0 := pyStripChars l
  let c1 :=
    if c0.take 3 = [btick, btick, btick] then
      let i := ((c0.findIdx? (· == '\n')).getD 3)
      c0.drop (i + 1)
    else c0
  let c2 :=
    if 3 ≤ c1.length ∧ c1.drop (c1.length - 3) = [btick, btick, btick] then
      c1.take (c1.length - 3)
    else c1
  pyStripChars c2

/-- `backboard.one_shot`, post-transport part: strip fences, parse JSON;
on parse failure return the `_parse_error` fallback dict. -/
def oneShotModel (raw : String) : JVal :=
  match parseJson (stripFences raw.toList) with
  | some v => v
  | none => .obj [("_raw", .str raw), ("_parse_error", .jbool true)]

-- ── Schemas (schemas.py) ──────────────────────────────────

/-- `schemas.DriverCitation`.  The `value` field admits int, float or
string (pydantic `Union[float, int, str]`); it is stored here as the raw
JSON value, restricted by `validCitationValue` at construction. -/
structure DriverCitation where
  driver : String
  value : JVal
  effect : String

/-- `schemas.AgentReaction`.  `score` is an integer; the parser only ever
constructs values clamped into `[0, 100]`. -/
structure AgentReaction where
  agent_id : String
  display_name : String
  stance : String
  score : ℤ
  concerns : List String
  why : List String
  would_change_mind_if : List String
  proposed_amendments : List String
  driver_citations : List DriverCitation

/-- `schemas.AggregateResult` (scores as exact rationals). -/
structure AggregateResult where
  sentiment_score : ℚ
  final_score : ℚ
  notes : List String

/-- `agents.AgentArchetype`.  The persona/priority fields feed only the
prompt text, which the spec places out of scope; only the fields used by
the core (id, display name, aggregation weight) are modelled. -/
structure AgentArchetype where
  id : String
  display_name : String
  weight : ℚ

/-- `agents.ARCHETYPES`: the six stakeholder archetypes, all with the
default weight `1.0`. -/
def ARCHETYPES : List AgentArchetype :=
  [⟨"student_renter", "Marcus Thompson", 1⟩,
   ⟨"nearby_homeowner", "Patricia Chen", 1⟩,
   ⟨"environmental_advocate", "Sarah Greenfield", 1⟩,
   ⟨"small_business_owner", "David Kowalski", 1⟩,
   ⟨"city_planner", "James Rivera", 1⟩,
   ⟨"accessibility_advocate", "Amara Okafor", 1⟩]

-- ── simulation._parse_reaction and the single-agent runner ─

/-- One entry of the `driver_citations` loop in `simulation._parse_reaction`:
`DriverCitation(driver=str(c.get("driver", "")), value=c.get("value", 0),
effect=str(c.get("effect", "neutral")))` inside `try/except`.  An entry is
dropped when `c` is not a dict (`c.get` raises) or when pydantic rejects
the `value` field. -/
def validCitationValue : JVal → Bool
  | .jint _ => true
  | .jfloat _ => true
  | .str _ => true
  | _ => false

def parseCitation : JVal → Option DriverCitation
  | .obj kvs =>
    let v := dictGetD kvs "value" (.jint 0)
    if validCitationValue v then
      some ⟨pyStr (dictGetD kvs "driver" (.str "")), v,
        pyStr (dictGetD kvs "effect" (.str "neutral"))⟩
    else none
  | _ => none

/-- `simulation._str_list`: coerce to a list of strings, defaulting to `[]`
when the value is not list-shaped. -/
def _str_list : Option JVal → List String
  | some (.arr l) => l.map pyStr
  | _ => []

/-- The fallback reaction `_parse_reaction` returns when the raw dict
carries the `_parse_error` marker set by `backboard.one_shot`. -/
def parseErrorFallback (aid dn : String) : AgentReaction :=
  ⟨aid, dn, "neutral", 50,
   ["Agent response could not be parsed."],
   ["Response was not valid JSON."], [], [], []⟩

/-- The fallback reaction built in `_run_single_agent`'s `except` handler
(timeout, transport error, or any exception escaping `_parse_reaction`);
`excName` is `type(exc).__name__`. -/
def excFallback (aid dn excName : String) : AgentReaction :=
  ⟨aid, dn, "neutral", 50,
   ["Agent timed out or failed: " ++ excName],
   ["Could not generate a reaction in time."], [], [], []⟩

/-- pydantic validation of a `str` field: a non-string raises
`ValidationError` (which `_run_single_agent` absorbs). -/
def pyStrField : JVal → Except String String
  | .str s => .ok s
  | _ => .error "ValidationError"

/-- ASCII lower-casing (model of `str.lower` on the ASCII range). -/
def lowerChar (c : Char) : Char :=
  if 'A' ≤ c ∧ c ≤ 'Z' then Char.ofNat (c.toNat + 32) else c

def pyLower (s : String) : String := String.mk (s.toList.map lowerChar)

/-- Stance normalisation in `_parse_reaction`: lower-case, default to
`neutral` outside the three allowed values. -/
def normStance (v : JVal) : String :=
  let st := pyLower (pyStr v)
  if st = "support" ∨ st = "neutral" ∨ st = "oppose" then st else "neutral"

/-- `simulation._parse_reaction`.  The error value carries the name of the
Python exception that would escape to `_run_single_agent`'s handler. -/
def _parse_reaction (aid dn : String) (raw : List (String × JVal)) :
    Except String AgentReaction :=
  if pyTruthyO (dictGet raw "_parse_error") then
    .ok (parseErrorFallback aid dn)
  else
    match pyIter (dictGetD raw "driver_citations" (.arr [])) with
    | .error e => .error e
    | .ok citems =>
      match pyInt (dictGetD raw "score" (.jint 50)) with
      | .error e => .error e
      | .ok s =>
        match pyStrField (dictGetD raw "agent_id" (.str aid)),
              pyStrField (dictGetD raw "display_name" (.str dn)) with
        | .ok agentId, .ok displayName =>
          .ok ⟨agentId, displayName,
            normStance (dictGetD raw "stance" (.str "neutral")),
            max 0 (min 100 s),
            _str_list (dictGet raw "concerns"),
            _str_list (dictGet raw "why"),
            _str_list (dictGet raw "would_change_mind_if"),
            _str_list (dictGet raw "proposed_amendments"),
            citems.filterMap parseCitation⟩
        | .error e, _ => .error e
        | _, .error e => .error e

/-- Outcome of the awaited `one_shot` call in `_run_single_agent`:
either the raw response text arrived, or the call raised (timeout,
transport error, non-success status, ...) with the given exception class
name. -/
inductive AgentOutcome where
  | response (raw : String)
  | exc (excName : String)

/-- `simulation._run_single_agent`: run one agent with timeout and
fallback.  Total — the runner never raises.  A parsed JSON value that is
not a dict makes `raw.get` raise `AttributeError`, absorbed like any other
exception. -/
def _run_single_agent (aid dn : String) : AgentOutcome → AgentReaction
  | .exc n => excFallback aid dn n
  | .response raw =>
    match oneShotModel raw with
    | .obj kvs =>
      match _parse_reaction aid dn kvs with
      | .ok r => r
      | .error n => excFallback aid dn n
    | _ => excFallback aid dn "AttributeError"

/-- Whether an invocation fails (timeout, transport error, or inability to
parse the response as the expected structure) — i.e. whether
`_run_single_agent` resolves it to a fallback reaction rather than a
successfully parsed one. -/
def invocationFailed (aid dn : String) : AgentOutcome → Bool
  | .exc _ => true
  | .response raw =>
    match oneShotModel raw with
    | .obj kvs =>
      pyTruthyO (dictGet kvs "_parse_error") ||
        (match _parse_reaction aid dn kvs with
         | .ok _ => false
         | .error _ => true)
    | _ => true

/-- The reactions the orchestrator records: one `_run_single_agent` result
per archetype, collected in completion order (some permutation of the
archetype list). -/
def collectedReactions (order : List AgentArchetype)
    (outs : AgentArchetype → AgentOutcome) : List AgentReaction :=
  order.map fun a => _run_single_agent a.id a.display_name (outs a)

-- ── simulation._aggregate ─────────────────────────────────

/-- Weight lookup in `_aggregate`:
`arch = next((a for a in archetypes if a.id == r.agent_id), None);
w = arch.weight if arch else 1.0`. -/
def weightOf (config : List AgentArchetype) (aid : String) : ℚ :=
  match config.find? (fun a => a.id == aid) with
  | some a => a.weight
  | none => 1

/-- The loop accumulator `weighted_sum`. -/
def weighted_sum (config : List AgentArchetype) (rs : List AgentReaction) : ℚ :=
  (rs.map fun r => (r.score : ℚ) * weightOf config r.agent_id).sum

/-- The loop accumulator `total_weight`. -/
def total_weight (config : List AgentArchetype) (rs : List AgentReaction) : ℚ :=
  (rs.map fun r => weightOf config r.agent_id).sum

/-- Python `f"{q:.0f}"` (format rounds half to even). -/
def fmt0 (q : ℚ) : String := toString (pyRoundInt q)

/-- `simulation._aggregate`, parameterised by the archetype configuration
the source reads from the module-level `ARCHETYPES`. -/
def aggregateWith (config : List AgentArchetype)
    (reactions : List AgentReaction)
    (deterministic_acceptance : ℚ) : AggregateResult :=
  if reactions.isEmpty then
    ⟨50, deterministic_acceptance, ["No agent reactions available."]⟩
  else
    let tw := total_weight config reactions
    let sentiment :=
      if tw = 0 then 50
      else pyRound1 (weighted_sum config reactions / tw)
    let final := pyRound1 (ALPHA * deterministic_acceptance +
      (1 - ALPHA) * sentiment)
    let sorted := reactions.mergeSort (fun a b => decide (a.score ≤ b.score))
    let baseNotes :=
      ["Sentiment score: " ++ fmt0 sentiment ++ " (weighted avg of " ++
        toString reactions.length ++ " agents)",
       "Blended: " ++ fmt0 (ALPHA * 100) ++ "% deterministic (" ++
        fmt0 deterministic_acceptance ++ ") + " ++ fmt0 ((1 - ALPHA) * 100) ++
        "% sentiment (" ++ fmt0 sentiment ++ ") = " ++ fmt0 final]
    let extremeNotes :=
      match sorted.head?, sorted.getLast? with
      | some lo, some hi =>
        ["Most critical: " ++ lo.display_name ++ " (" ++ toString lo.score ++
          ")",
         "Most supportive: " ++ hi.display_name ++ " (" ++
          toString hi.score ++ ")"]
      | _, _ => []
    ⟨sentiment, final, baseNotes ++ extremeNotes⟩

/-- `simulation._aggregate` as the source has it, over the module-level
`ARCHETYPES`. -/
def _aggregate (reactions : List AgentReaction)
    (deterministic_acceptance : ℚ) : AggregateResult :=
  aggregateWith ARCHETYPES reactions deterministic_acceptance

-- ── run_simulation as a sequence of field writes ──────────

/-- Snapshot of the mutable `Job` fields the orchestrator writes.
`result` is abstracted to the flag `hasResult` (its payload is assembled
from values already covered by the other definitions). -/
structure JobState where
  status : String
  progress : ℕ
  phase : String
  message : String
  agents_done : ℕ
  agents_total : ℕ
  hasResult : Bool
  error : Option String
deriving DecidableEq

/-- `create_job`: status `queued`, progress 0, `agents_total` fixed to the
archetype count. -/
def initJob (n : ℕ) : JobState := ⟨"queued", 0, "", "", 0, n, false, none⟩

/-- One field assignment performed by `run_simulation` on the job. -/
inductive FieldWrite where
  | wStatus (s : String)
  | wProgress (p : ℕ)
  | wPhase (s : String)
  | wMessage (s : String)
  | wDone (k : ℕ)
  | wResult
  | wError (e : String)
deriving DecidableEq

def applyWrite (j : JobState) : FieldWrite → JobState
  | .wStatus s => { j with status := s }
  | .wProgress p => { j with progress := p }
  | .wPhase s => { j with phase := s }
  | .wMessage s => { j with message := s }
  | .wDone k => { j with agents_done := k }
  | .wResult => { j with hasResult := true }
  | .wError e => { j with error := some e }

def agentMsg (k n : ℕ) : String :=
  "Agent " ++ toString k ++ "/" ++ toString n ++ " complete..."

/-- The three writes after the k-th agent completion:
`agents_done = k`, `progress = 20 + int(70*k/n)` (float division followed
by `int()` equals floor division for these operands), and the message. -/
def agentWrites (n k : ℕ) : List FieldWrite :=
  [.wDone k, .wProgress (20 + (70 * k) / n), .wMessage (agentMsg k n)]

/-- Writes before the fan-out loop (impacts phase, then agents phase). -/
def preLoopWrites : List FieldWrite :=
  [.wStatus "running", .wPhase "impacts", .wProgress 15,
   .wMessage "Processing impact data...",
   .wPhase "agents", .wProgress 20,
   .wMessage "Generating stakeholder reactions..."]

/-- Writes after the last agent completes (aggregate phase and completion). -/
def finalWrites : List FieldWrite :=
  [.wPhase "aggregate", .wProgress 92, .wMessage "Aggregating sentiment...",
   .wResult, .wStatus "complete", .wProgress 100, .wPhase "complete",
   .wMessage "Simulation complete."]

/-- The complete write sequence of a successful `run_simulation` over `n`
archetypes, in source order. -/
def successWrites (n : ℕ) : List FieldWrite :=
  preLoopWrites ++
    (List.range n).flatMap (fun i => agentWrites n (i + 1)) ++ finalWrites

/-- Every state the job passes through during a successful run (the job as
created, then the state after each single field write), for the actual
archetype count. -/
def traceStates6 : List JobState :=
  (successWrites ARCHETYPES.length).scanl applyWrite
    (initJob ARCHETYPES.length)

/-- The job state after the first `p` writes of a successful run. -/
def prefixState (p : ℕ) : JobState :=
  ((successWrites ARCHETYPES.length).take p).foldl applyWrite
    (initJob ARCHETYPES.length)

/-- The `except` handler of `run_simulation`: status `error`, the
exception description into `error`, and `f"Error: {exc}"` into `message`. -/
def errorWrites (e : String) : List FieldWrite :=
  [.wStatus "error", .wError e, .wMessage ("Error: " ++ e)]

/-- The states passed through by the error handler when an exception
interrupts the driving sequence after its first `p` writes (head is the
state at the moment of the exception). -/
def errorStates (p : ℕ) (e : String) : List JobState :=
  (errorWrites e).scanl applyWrite (prefixState p)

/-- The final state of a run interrupted after `p` writes by an exception
described by `e`: the full history is the interrupted prefix followed by
the error writes, and nothing after (error is terminal). -/
def errorRunEnd (p : ℕ) (e : String) : JobState :=
  (((successWrites ARCHETYPES.length).take p) ++ errorWrites e).foldl
    applyWrite (initJob ARCHETYPES.length)

/-- A state is reachable when it occurs on the successful trace or on the
error branch taken from some interruption point. -/
def ReachableState (j : JobState) : Prop :=
  j ∈ traceStates6 ∨ ∃ p e, j ∈ errorStates p e

/-- Progress and agents_done do not decrease across one step. -/
def stepMono (a b : JobState) : Prop :=
  a.progress ≤ b.progress ∧ a.agents_done ≤ b.agents_done

/-- Bool checker for `stepMono` chains (kernel-reducible, unlike the
generic `Chain'` instance). -/
def chainMonoB : List JobState → Bool
  | [] => true
  | [_] => true
  | a :: b :: t =>
    (Nat.ble a.progress b.progress && Nat.ble a.agents_done b.agents_done) &&
      chainMonoB (b :: t)

/-- The job state after the orchestrator has completed the pre-loop writes
and the first `k` agent-completion write blocks. -/
def afterAgents (k : ℕ) : JobState :=
  (preLoopWrites ++
    (List.range k).flatMap
      (fun i => agentWrites ARCHETYPES.length (i + 1))).foldl applyWrite
    (initJob ARCHETYPES.length)


-- ── Concrete values used in instances and witnesses ───────

/-- A reaction from the first archetype with score 40 (drives sentiment to
exactly 40 under the all-ones weights). -/
def r40 : AgentReaction :=
  ⟨"student_renter", "Marcus Thompson", "neutral", 40, [], [], [], [], []⟩

/-- A two-archetype configuration with weights 2 and 1. -/
def demoArchetypes : List AgentArchetype := [⟨"w2", "W2", 2⟩, ⟨"w1", "W1", 1⟩]

def demoR100 : AgentReaction := ⟨"w2", "W2", "support", 100, [], [], [], [], []⟩

def demoR0 : AgentReaction := ⟨"w1", "W1", "oppose", 0, [], [], [], [], []⟩

/-- A configuration whose single archetype has weight 0. -/
def zeroArchetypes : List AgentArchetype := [⟨"z", "Z", 0⟩]

def rZ : AgentReaction := ⟨"z", "Z", "neutral", 70, [], [], [], [], []⟩

/-- The fenced response of the spec's parsing test. -/
def fencedResponse : String :=
  "```json\n\x7b\"score\": 150, \"stance\": \"WOW\"\x7d\n```"

def fencedInner : String := "\x7b\"score\": 150, \"stance\": \"WOW\"\x7d"

/-- A raw dict with a float, out-of-range score and an invalid stance. -/
def rawWOW : List (String × JVal) :=
  [("score", .jfloat (301/2)), ("stance", .str "WOW")]

/-- The reaction `_parse_reaction` produces from `rawWOW`. -/
def rWOW : AgentReaction :=
  ⟨"a", "A", "neutral", max 0 (min 100 (pyTrunc (301/2))), [], [], [], [], []⟩

/-- A raw dict carrying one well-formed driver citation. -/
def rawCit : List (String × JVal) :=
  [("driver_citations", .arr [.obj [("driver", .str "d_to_park_m"),
    ("value", .jint 3), ("effect", .str "positive")]])]

/-- The reaction `_parse_reaction` produces from `rawCit`. -/
def rCit : AgentReaction :=
  ⟨"a", "A", "neutral", 50, [], [], [], [],
   [⟨"d_to_park_m", .jint 3, "positive"⟩]⟩

-- ── Helper lemmas ─────────────────────────────────────────

lemma chainMonoB_iff :
    ∀ l : List JobState, chainMonoB l = true ↔ List.Chain' stepMono l := by
  intro l
  induction l with
  | nil => simp [chainMonoB]
  | cons a t ih =>
    cases t with
    | nil => simp [chainMonoB]
    | cons b u =>
      rw [chainMonoB, List.chain'_cons]
      simp only [Bool.and_eq_true, Nat.ble_eq]
      rw [ih]
      unfold stepMono
      tauto

lemma foldl_take_mem_scanl (l : List FieldWrite) :
    ∀ (p : ℕ) (b : JobState),
      (l.take p).foldl applyWrite b ∈ l.scanl applyWrite b := by
  induction l with
  | nil =>
    intro p b
    simp [List.scanl]
  | cons w ws ih =>
    intro p b
    cases p with
    | zero => simp [List.scanl]
    | succ q =>
      simpa [List.scanl] using
        List.mem_cons_of_mem b (ih q (applyWrite b w))

lemma weightOf_ARCHETYPES (aid : String) : weightOf ARCHETYPES aid = 1 := by
  unfold weightOf
  cases h : ARCHETYPES.find? (fun a => a.id == aid) with
  | none => rfl
  | some a =>
    have ha : a ∈ ARCHETYPES := List.mem_of_find?_eq_some h
    have hall : ∀ b ∈ ARCHETYPES, b.weight = 1 := by decide
    exact hall a ha

lemma total_weight_ARCHETYPES (rs : List AgentReaction) :
    total_weight ARCHETYPES rs = rs.length := by
  induction rs with
  | nil => simp [total_weight]
  | cons x t ih =>
    simp only [total_weight, List.map_cons, List.sum_cons,
      weightOf_ARCHETYPES, List.length_cons] at ih ⊢
    rw [ih]
    push_cast
    ring

/-- A failed invocation resolves to one of the two fallback reactions. -/
lemma failed_fallback (aid dn : String) (o : AgentOutcome)
    (h : invocationFailed aid dn o = true) :
    _run_single_agent aid dn o = parseErrorFallback aid dn ∨
      ∃ n, _run_single_agent aid dn o = excFallback aid dn n := by
  cases o with
  | exc n => exact .inr ⟨n, rfl⟩
  | response raw =>
    simp only [invocationFailed] at h
    simp only [_run_single_agent]
    generalize hv : oneShotModel raw = v at h ⊢
    cases v with
    | obj kvs =>
      dsimp only at h ⊢
      by_cases hf : pyTruthyO (dictGet kvs "_parse_error") = true
      · have hp : _parse_reaction aid dn kvs =
            Except.ok (parseErrorFallback aid dn) := by
          simp [_parse_reaction, hf]
        rw [hp]
        exact .inl rfl
      · simp only [Bool.or_eq_true] at h
        rcases h with h | h
        · exact absurd h hf
        · cases hp : _parse_reaction aid dn kvs with
          | ok r => rw [hp] at h; simp at h
          | error n => exact .inr ⟨n, rfl⟩
    | str s => exact .inr ⟨"AttributeError", rfl⟩
    | jint n => exact .inr ⟨"AttributeError", rfl⟩
    | jfloat q => exact .inr ⟨"AttributeError", rfl⟩
    | jbool b => exact .inr ⟨"AttributeError", rfl⟩
    | jnull => exact .inr ⟨"AttributeError", rfl⟩
    | arr l => exact .inr ⟨"AttributeError", rfl⟩

-- ── Claims ────────────────────────────────────────────────

/-- Claim C1, counterexample to the claim as stated: for the empty
reaction list (a list of agent reactions) with deterministic acceptance
55, `_aggregate` returns `final_score = 55` unchanged, not the blend
`round(ALPHA*55 + (1-ALPHA)*sentiment_score, 1) = 53.5`. -/
theorem C1_empty_list_counterexample :
    (_aggregate [] 55).final_score ≠
      pyRound1 (ALPHA * 55 + (1 - ALPHA) * (_aggregate [] 55).sentiment_score) := by
  have h1 : (_aggregate [] 55).final_score = 55 := rfl
  have h2 : (_aggregate [] 55).sentiment_score = 50 := rfl
  rw [h1, h2]
  unfold pyRound1 pyRoundInt ALPHA
  norm_num

/-- Claim C1 (amended): for every NON-EMPTY list of agent reactions and
every deterministic acceptance score, the aggregator computes
`final_score = round(ALPHA * deterministic_acceptance +
(1 - ALPHA) * sentiment_score, 1)` with `ALPHA = 0.7` (for the empty list
`final_score` is the deterministic acceptance unchanged); in particular,
for deterministic acceptance 80 and a reaction list whose sentiment score
is 40, the final score is exactly 68.0. -/
theorem C1_blend_formula :
    (∀ (rs : List AgentReaction) (da : ℚ), rs ≠ [] →
      (_aggregate rs da).final_score =
        pyRound1 (ALPHA * da + (1 - ALPHA) * (_aggregate rs da).sentiment_score))
    ∧ (∀ da : ℚ, (_aggregate [] da).final_score = da)
    ∧ (_aggregate [r40] 80).sentiment_score = 40
    ∧ (_aggregate [r40] 80).final_score = 68 := by
  have key : ∀ (rs : List AgentReaction) (da : ℚ), rs ≠ [] →
      (_aggregate rs da).final_score =
        pyRound1 (ALPHA * da + (1 - ALPHA) * (_aggregate rs da).sentiment_score) := by
    intro rs da h
    obtain ⟨x, t, rfl⟩ := List.exists_cons_of_ne_nil h
    simp only [_aggregate, aggregateWith, List.isEmpty_cons, Bool.false_eq_true,
      if_false]
  have htw : total_weight ARCHETYPES [r40] = 1 := by
    rw [total_weight_ARCHETYPES]
    norm_num
  have hws : weighted_sum ARCHETYPES [r40] = 40 := by
    simp [weighted_sum, weightOf_ARCHETYPES, r40]
  have hsent : (_aggregate [r40] 80).sentiment_score = 40 := by
    simp only [_aggregate, aggregateWith, List.isEmpty_cons, Bool.false_eq_true,
      if_false, htw, hws]
    norm_num [pyRound1, pyRoundInt]
  refine ⟨key, fun da => rfl, hsent, ?_⟩
  rw [key [r40] 80 (by simp), hsent]
  unfold pyRound1 pyRoundInt ALPHA
  norm_num

/-- Witness for C1: the non-emptiness hypothesis is satisfiable. -/
theorem C1_blend_formula_witness :
    ([r40] ≠ ([] : List AgentReaction)) ∧
      (_aggregate [r40] 80).final_score =
        pyRound1 (ALPHA * 80 + (1 - ALPHA) * (_aggregate [r40] 80).sentiment_score) :=
  ⟨by simp, C1_blend_formula.1 [r40] 80 (by simp)⟩

/-- Claim C2: every failed agent invocation (timeout, transport error, or
inability to parse the response) produces exactly one fallback reaction
with stance `neutral`, score 50, one concern naming the failure class, one
rationale line, empty amendment and citation lists; the runner is total
(never raises), and the orchestrator records exactly one reaction per
archetype regardless of failures. -/
theorem C2_failure_fallback :
    (∀ aid dn o, invocationFailed aid dn o = true →
      (_run_single_agent aid dn o).stance = "neutral" ∧
      (_run_single_agent aid dn o).score = 50 ∧
      (_run_single_agent aid dn o).concerns ≠ [] ∧
      (_run_single_agent aid dn o).concerns.length = 1 ∧
      (_run_single_agent aid dn o).why.length = 1 ∧
      (_run_single_agent aid dn o).proposed_amendments = [] ∧
      (_run_single_agent aid dn o).driver_citations = []) ∧
    (∀ (outs : AgentArchetype → AgentOutcome) (order : List AgentArchetype),
      order.Perm ARCHETYPES →
      (collectedReactions order outs).length = ARCHETYPES.length ∧
      ∀ a ∈ ARCHETYPES,
        _run_single_agent a.id a.display_name (outs a) ∈
          collectedReactions order outs) := by
  constructor
  · intro aid dn o h
    rcases failed_fallback aid dn o h with hq | ⟨n, hq⟩ <;> rw [hq]
    · exact ⟨rfl, rfl, by simp [parseErrorFallback], rfl, rfl, rfl, rfl⟩
    · exact ⟨rfl, rfl, by simp [excFallback], rfl, rfl, rfl, rfl⟩
  · intro outs order hperm
    constructor
    · simp [collectedReactions, hperm.length_eq]
    · intro a ha
      exact List.mem_map_of_mem _ (hperm.mem_iff.mpr ha)

/-- Witness for C2: a timed-out invocation satisfies the hypothesis, and
the identity completion order is a permutation of the archetype list. -/
theorem C2_failure_fallback_witness :
    invocationFailed "x" "Y" (.exc "TimeoutError") = true ∧
    (_run_single_agent "x" "Y" (.exc "TimeoutError")).stance = "neutral" ∧
    (_run_single_agent "x" "Y" (.exc "TimeoutError")).score = 50 ∧
    (collectedReactions ARCHETYPES fun _ => .exc "TimeoutError").length =
      ARCHETYPES.length :=
  ⟨rfl,
   (C2_failure_fallback.1 "x" "Y" (.exc "TimeoutError") rfl).1,
   (C2_failure_fallback.1 "x" "Y" (.exc "TimeoutError") rfl).2.1,
   (C2_failure_fallback.2 (fun _ => .exc "TimeoutError") ARCHETYPES
      (List.Perm.refl _)).1⟩

/-- Claim C3, counterexample to the claim as stated: the state reached
right after the write `job.status = "complete"` (write 30 of the
successful sequence) — and before the immediately following write
`job.progress = 100` — has status `complete` with progress still 92. -/
theorem C3_transient_complete_counterexample :
    ReachableState (traceStates6.getD 30 (initJob ARCHETYPES.length)) ∧
    (traceStates6.getD 30 (initJob ARCHETYPES.length)).status = "complete" ∧
    (traceStates6.getD 30 (initJob ARCHETYPES.length)).progress ≠ 100 :=
  ⟨.inl (by decide), by decide, by decide⟩

/-- Claim C3 (amended): in every state reachable by the orchestrator's
sequence of field writes (successful trace, or error branch from any
interruption point), `progress` and `agents_done` never decrease — from
job creation onward, hence in particular once the job has left `queued` —
and whenever `status = complete`, `progress` is 100 except in the single
transient state between the write setting status to `complete` and the
immediately following `progress = 100` write, where it is still 92; the
final state of a successful run has status `complete` and progress exactly
100. -/
theorem C3_progress_monotone :
    List.Chain' stepMono traceStates6
    ∧ (∀ p e, List.Chain' stepMono (errorStates p e))
    ∧ (∀ p e, (errorStates p e).head? = some (prefixState p))
    ∧ (∀ j, ReachableState j → j.status = "complete" →
        j.progress = 92 ∨ j.progress = 100)
    ∧ traceStates6.length = 34
    ∧ (traceStates6.getD 33 (initJob ARCHETYPES.length)).status = "complete"
    ∧ (traceStates6.getD 33 (initJob ARCHETYPES.length)).progress = 100 := by
  have hball : ∀ j ∈ traceStates6, j.status = "complete" →
      j.progress = 92 ∨ j.progress = 100 := by decide
  refine ⟨(chainMonoB_iff _).mp (by decide), ?_, ?_, ?_, by decide, by decide,
    by decide⟩
  · intro p e
    simp [errorWrites, List.scanl, List.chain'_cons, stepMono, applyWrite,
      errorStates]
  · intro p e
    simp [errorStates, errorWrites, List.scanl]
  · intro j hr hc
    rcases hr with hm | ⟨p, e, hm⟩
    · exact hball j hm hc
    · simp only [errorStates, errorWrites, List.scanl, List.mem_cons,
        List.not_mem_nil, or_false] at hm
      rcases hm with rfl | rfl | rfl | rfl
      · exact hball _ (foldl_take_mem_scanl _ p _) hc
      · simp [applyWrite] at hc
      · simp [applyWrite] at hc
      · simp [applyWrite] at hc

/-- Witness for C3: the hypotheses are satisfiable — the state after all
33 writes of a successful run is reachable with status `complete`, and its
progress is 100. -/
theorem C3_progress_monotone_witness :
    (prefixState 33).progress = 92 ∨ (prefixState 33).progress = 100 :=
  C3_progress_monotone.2.2.2.1 (prefixState 33)
    (.inl (foldl_take_mem_scanl _ 33 _)) (by decide)

/-- Claim C4: during the agents phase, after the k-th of the N concurrent
agent invocations completes, the orchestrator's write sequence has set
`progress = 20 + floor(70 * agents_done / agents_total)` and
`agents_done = k` (the writes executed so far being a prefix of the
successful run's write sequence), and `progress = 90` exactly when the
last agent finishes (`agents_done = agents_total`). -/
theorem C4_progress_formula :
    ∀ k, k ≤ ARCHETYPES.length → 1 ≤ k →
      (afterAgents k).progress = 20 + (70 * k) / ARCHETYPES.length ∧
      (afterAgents k).agents_done = k ∧
      ((preLoopWrites ++ (List.range k).flatMap
        (fun i => agentWrites ARCHETYPES.length (i + 1))).isPrefixOf
          (successWrites ARCHETYPES.length) = true) ∧
      (k = ARCHETYPES.length → (afterAgents k).progress = 90) := by
  decide

/-- Witness for C4: at the last agent (k = agents_total = 6) the progress
is exactly 90. -/
theorem C4_progress_formula_witness :
    (afterAgents ARCHETYPES.length).progress = 90 :=
  (C4_progress_formula ARCHETYPES.length (le_refl _) (by decide)).2.2.2 rfl

/-- Claim C5: for every non-empty reaction list the aggregator computes
`sentiment_score` as the weighted mean
`round(sum(score_i * weight_i) / sum(weight_i), 1)` where `weight_i` is
the configured weight of the reaction's originating archetype (all 1.0 by
default, with 1.0 for unknown archetypes); in particular, two reactions
with scores 100 and 0 whose archetypes are configured with weights 2 and 1
yield sentiment score 66.7. -/
theorem C5_weighted_sentiment :
    (∀ (rs : List AgentReaction) (da : ℚ), rs ≠ [] →
      (_aggregate rs da).sentiment_score =
        pyRound1 (weighted_sum ARCHETYPES rs / total_weight ARCHETYPES rs))
    ∧ (aggregateWith demoArchetypes [demoR100, demoR0] 0).sentiment_score =
        667/10 := by
  constructor
  · intro rs da h
    have htw : total_weight ARCHETYPES rs ≠ 0 := by
      rw [total_weight_ARCHETYPES]
      exact_mod_cast (List.length_pos.mpr h).ne'
    obtain ⟨x, t, rfl⟩ := List.exists_cons_of_ne_nil h
    simp only [_aggregate, aggregateWith, List.isEmpty_cons, Bool.false_eq_true,
      if_false, htw, ite_false]
  · have hw2 : weightOf demoArchetypes "w2" = 2 := rfl
    have hw1 : weightOf demoArchetypes "w1" = 1 := rfl
    have htw : total_weight demoArchetypes [demoR100, demoR0] = 3 := by
      simp [total_weight, demoR100, demoR0, hw2, hw1]
      norm_num
    have hws : weighted_sum demoArchetypes [demoR100, demoR0] = 200 := by
      simp [weighted_sum, demoR100, demoR0, hw2, hw1]
      norm_num
    simp only [aggregateWith, List.isEmpty_cons, Bool.false_eq_true, if_false,
      htw, hws]
    norm_num [pyRound1, pyRoundInt]

/-- Witness for C5: the non-emptiness hypothesis is satisfiable. -/
theorem C5_weighted_sentiment_witness :
    ([r40] ≠ ([] : List AgentReaction)) ∧
      (_aggregate [r40] 80).sentiment_score =
        pyRound1 (weighted_sum ARCHETYPES [r40] / total_weight ARCHETYPES [r40]) :=
  ⟨by simp, C5_weighted_sentiment.1 [r40] 80 (by simp)⟩

/-- Claim C9: aggregation is order-independent — permuting the reaction
list leaves both `sentiment_score` and `final_score` unchanged. -/
theorem C9_order_independent :
    ∀ (rs rs' : List AgentReaction) (da : ℚ), rs.Perm rs' →
      (_aggregate rs da).sentiment_score = (_aggregate rs' da).sentiment_score ∧
      (_aggregate rs da).final_score = (_aggregate rs' da).final_score := by
  intro rs rs' da h
  have hws : weighted_sum ARCHETYPES rs = weighted_sum ARCHETYPES rs' :=
    (h.map _).sum_eq
  have htw : total_weight ARCHETYPES rs = total_weight ARCHETYPES rs' :=
    (h.map _).sum_eq
  by_cases he : rs = []
  · subst he
    have he' : rs' = [] := h.symm.eq_nil
    subst he'
    exact ⟨rfl, rfl⟩
  · have he' : rs' ≠ [] := by
      intro hh
      subst hh
      exact he h.eq_nil
    obtain ⟨x, t, rfl⟩ := List.exists_cons_of_ne_nil he
    obtain ⟨y, u, rfl⟩ := List.exists_cons_of_ne_nil he'
    simp only [_aggregate, aggregateWith, List.isEmpty_cons, Bool.false_eq_true,
      if_false]
    rw [hws, htw]
    exact ⟨rfl, rfl⟩

/-- Witness for C9: the permutation hypothesis is satisfiable with the
two-element swap. -/
theorem C9_order_independent_witness :
    (_aggregate [demoR100, demoR0] 30).sentiment_score =
      (_aggregate [demoR0, demoR100] 30).sentiment_score ∧
    (_aggregate [demoR100, demoR0] 30).final_score =
      (_aggregate [demoR0, demoR100] 30).final_score :=
  C9_order_independent [demoR100, demoR0] [demoR0, demoR100] 30
    (List.Perm.swap demoR0 demoR100 [])

/-- Claim C10: the aggregator is total and never divides by zero — for
every non-empty reaction list whose looked-up archetype weights sum to
zero, `sentiment_score` defaults to 50.0 instead of dividing, and
`final_score` is still computed from that default through the blend
formula. -/
theorem C10_zero_weight_default :
    ∀ (config : List AgentArchetype) (rs : List AgentReaction) (da : ℚ),
      rs ≠ [] → total_weight config rs = 0 →
      (aggregateWith config rs da).sentiment_score = 50 ∧
      (aggregateWith config rs da).final_score =
        pyRound1 (ALPHA * da + (1 - ALPHA) * 50) := by
  intro config rs da hne htw
  obtain ⟨x, t, rfl⟩ := List.exists_cons_of_ne_nil hne
  simp only [aggregateWith, List.isEmpty_cons, Bool.false_eq_true, if_false,
    htw, ite_true, if_true]
  exact ⟨trivial, trivial⟩

/-- Witness for C10: a weight-zero configuration satisfies the hypotheses. -/
theorem C10_zero_weight_default_witness :
    ([rZ] ≠ ([] : List AgentReaction)) ∧
    total_weight zeroArchetypes [rZ] = 0 ∧
    (aggregateWith zeroArchetypes [rZ] 80).sentiment_score = 50 ∧
    (aggregateWith zeroArchetypes [rZ] 80).final_score =
      pyRound1 (ALPHA * 80 + (1 - ALPHA) * 50) := by
  have h0 : total_weight zeroArchetypes [rZ] = 0 := by
    simp [total_weight, rZ, show weightOf zeroArchetypes "z" = 0 from rfl]
  have hc := C10_zero_weight_default zeroArchetypes [rZ] 80 (by simp) h0
  exact ⟨by simp, h0, hc.1, hc.2⟩

/-- Claim C6: parsing an agent response wrapped in a markdown fence whose
JSON body is `\x7b"score": 150, "stance": "WOW"\x7d` yields a reaction
with score clamped to 100 and stance defaulted to `neutral`; in general
the fence is stripped before JSON parsing, every successfully parsed
reaction has its score clamped into [0, 100] (truncated to an integer when
the service returns a float), and a stance outside
support/neutral/oppose after lower-casing defaults to `neutral`. -/
theorem C6_parse_normalisation :
    stripFences fencedResponse.toList = fencedInner.toList
    ∧ (_run_single_agent "a" "A" (.response fencedResponse)).score = 100
    ∧ (_run_single_agent "a" "A" (.response fencedResponse)).stance = "neutral"
    ∧ (∀ aid dn raw r, _parse_reaction aid dn raw = .ok r →
        0 ≤ r.score ∧ r.score ≤ 100)
    ∧ (∀ aid dn raw q r,
        pyTruthyO (dictGet raw "_parse_error") = false →
        dictGetD raw "score" (.jint 50) = .jfloat q →
        _parse_reaction aid dn raw = .ok r →
        r.score = max 0 (min 100 (pyTrunc q)))
    ∧ (∀ aid dn raw s r,
        pyTruthyO (dictGet raw "_parse_error") = false →
        dictGetD raw "stance" (.str "neutral") = .str s →
        ¬(pyLower s = "support" ∨ pyLower s = "neutral" ∨ pyLower s = "oppose") →
        _parse_reaction aid dn raw = .ok r →
        r.stance = "neutral") := by
  refine ⟨rfl, rfl, rfl, ?_, ?_, ?_⟩
  · intro aid dn raw r h
    unfold _parse_reaction at h
    repeat' split at h
    all_goals cases h
    · constructor <;> norm_num [parseErrorFallback]
    · constructor
      · exact le_max_left 0 _
      · exact max_le (by norm_num) (min_le_left 100 _)
  · intro aid dn raw q r hflag hscore h
    unfold _parse_reaction at h
    rw [hflag] at h
    simp only [Bool.false_eq_true, if_false] at h
    rw [hscore] at h
    simp only [pyInt] at h
    repeat' split at h
    all_goals cases h
    rfl
  · intro aid dn raw s r hflag hstance hs h
    unfold _parse_reaction at h
    rw [hflag] at h
    simp only [Bool.false_eq_true, if_false] at h
    rw [hstance] at h
    repeat' split at h
    all_goals cases h
    simp only [normStance, pyStr]
    rw [if_neg hs]

/-- Witness for C6: the hypotheses of the universally quantified parts are
satisfiable at the concrete raw dict `rawWOW`. -/
theorem C6_parse_normalisation_witness :
    (0 ≤ rWOW.score ∧ rWOW.score ≤ 100) ∧
    rWOW.score = max 0 (min 100 (pyTrunc (301/2))) ∧
    rWOW.stance = "neutral" :=
  ⟨C6_parse_normalisation.2.2.2.1 "a" "A" rawWOW rWOW rfl,
   C6_parse_normalisation.2.2.2.2.1 "a" "A" rawWOW (301/2) rWOW rfl rfl rfl,
   C6_parse_normalisation.2.2.2.2.2 "a" "A" rawWOW "WOW" rWOW rfl rfl
     (by decide) rfl⟩

/-- Claim C7: if an exception (description `e`) escapes the driving
sequence after any prefix of `p` writes, the job transitions directly to
status `error` (the very next write), with the exception's description
captured in both the `error` field and the `message` field; the error
handler touches no other field (progress, agents_done, phase and result
keep their values from the moment of the exception), and the run's write
sequence ends there — `error` is terminal, `errorRunEnd` being the final
state of the entire interrupted run. -/
theorem C7_error_terminal :
    ∀ (p : ℕ) (e : String),
      errorRunEnd p e = (errorWrites e).foldl applyWrite (prefixState p)
      ∧ ((errorStates p e).getD 1 (initJob 0)).status = "error"
      ∧ (errorRunEnd p e).status = "error"
      ∧ (errorRunEnd p e).error = some e
      ∧ (errorRunEnd p e).message = "Error: " ++ e
      ∧ (errorRunEnd p e).progress = (prefixState p).progress
      ∧ (errorRunEnd p e).agents_done = (prefixState p).agents_done
      ∧ (errorRunEnd p e).phase = (prefixState p).phase
      ∧ (errorRunEnd p e).hasResult = (prefixState p).hasResult
      ∧ (∀ j ∈ (errorStates p e).drop 1, j.status = "error") := by
  intro p e
  have hsplit : errorRunEnd p e =
      (errorWrites e).foldl applyWrite (prefixState p) := by
    unfold errorRunEnd prefixState
    rw [List.foldl_append]
  refine ⟨hsplit, ?_, by rw [hsplit]; rfl, by rw [hsplit]; rfl,
    by rw [hsplit]; rfl, by rw [hsplit]; rfl, by rw [hsplit]; rfl,
    by rw [hsplit]; rfl, by rw [hsplit]; rfl, ?_⟩
  · simp [errorStates, errorWrites, List.scanl, applyWrite]
  · intro j hj
    simp only [errorStates, errorWrites, List.scanl, List.drop_succ_cons,
      List.drop_zero, List.mem_cons, List.not_mem_nil, or_false] at hj
    rcases hj with rfl | rfl | rfl <;> rfl

/-- Witness for C7: concrete interruption after 2 writes with description
`boom`; the membership hypothesis of the terminal-status conjunct is
satisfiable at the state right after the status write. -/
theorem C7_error_terminal_witness :
    (errorRunEnd 2 "boom").status = "error" ∧
    (errorRunEnd 2 "boom").error = some "boom" ∧
    (errorRunEnd 2 "boom").message = "Error: " ++ "boom" ∧
    (errorRunEnd 2 "boom").progress = (prefixState 2).progress ∧
    (applyWrite (prefixState 2) (.wStatus "error")).status = "error" :=
  ⟨(C7_error_terminal 2 "boom").2.2.1,
   (C7_error_terminal 2 "boom").2.2.2.1,
   (C7_error_terminal 2 "boom").2.2.2.2.1,
   (C7_error_terminal 2 "boom").2.2.2.2.2.1,
   (C7_error_terminal 2 "boom").2.2.2.2.2.2.2.2.2
     (applyWrite (prefixState 2) (.wStatus "error"))
     (by simp [errorStates, errorWrites, List.scanl])⟩

/-- Claim C8, counterexample to the claim as stated: the response `{}`
parses successfully — the invocation does not fail — yet the resulting
(non-fallback) reaction has an empty `driver_citations` list, because the
parser does not enforce non-emptiness. -/
theorem C8_success_empty_citations_counterexample :
    invocationFailed "a" "A" (.response "\x7b\x7d") = false ∧
    (_run_single_agent "a" "A" (.response "\x7b\x7d")).driver_citations = [] :=
  ⟨rfl, rfl⟩

/-- Claim C8 (amended): `driver_citations` is empty in every fallback
reaction; a successfully parsed reaction has `driver_citations` equal to
the well-formed entries of the response's `driver_citations` field —
which may be empty when the response supplies none — so emptiness is not
exclusive to the fallback case. -/
theorem C8_citations_characterisation :
    (∀ aid dn o, invocationFailed aid dn o = true →
      (_run_single_agent aid dn o).driver_citations = [])
    ∧ (∀ aid dn raw r citems,
        pyTruthyO (dictGet raw "_parse_error") = false →
        pyIter (dictGetD raw "driver_citations" (.arr [])) = .ok citems →
        _parse_reaction aid dn raw = .ok r →
        r.driver_citations = citems.filterMap parseCitation) := by
  constructor
  · intro aid dn o h
    rcases failed_fallback aid dn o h with hq | ⟨n, hq⟩ <;> rw [hq] <;> rfl
  · intro aid dn raw r citems hflag hiter h
    unfold _parse_reaction at h
    rw [hflag] at h
    simp only [Bool.false_eq_true, if_false] at h
    rw [hiter] at h
    dsimp only at h
    repeat' split at h
    all_goals cases h
    rfl

/-- Witness for C8: both parts applied at concrete inputs — a timed-out
invocation yields empty citations, and `rawCit` parses to one well-formed
citation. -/
theorem C8_citations_characterisation_witness :
    (_run_single_agent "x" "Y" (.exc "TimeoutError")).driver_citations = [] ∧
    rCit.driver_citations =
      [JVal.obj [("driver", .str "d_to_park_m"), ("value", .jint 3),
        ("effect", .str "positive")]].filterMap parseCitation :=
  ⟨C8_citations_characterisation.1 "x" "Y" (.exc "TimeoutError") rfl,
   C8_citations_characterisation.2 "a" "A" rawCit rCit
     [JVal.obj [("driver", .str "d_to_park_m"), ("value", .jint 3),
       ("effect", .str "positive")]] rfl rfl rfl⟩
